import Mathlib

/-!
Shallow embedding of the GPS-simulator preparation scripts
(`generate_gps_sim_V2.py`, the working version, and the fragment of
`generate_gps_sim_V1.py` relevant to its syntax error).

The pipeline has three components: an ephemeris Acquirer
(`download_ephemeris_file`), a signal-artifact Generator
(`generate_gps_file`) and an artifact Distributor
(`copy_files_to_sd_card`).  The scripts are sequential and effectful;
the embedding passes the filesystem state and the network explicitly
and records observable events (HTTP requests with their timeouts,
diagnostic messages) so that claims about error handling and resource
bounds can be stated.

Python runtime primitives that the scripts call (string formatting of
floats, `str.lower`, `str.endswith`, gzip decoding) are not part of the
repository; they are modelled here by small executable definitions that
are faithful to CPython on the inputs this program produces, each
carrying a doc comment explaining the modelling choice.
-/

/-- Decimal digit character: `digitChar n` is the character for digit `n ≤ 9`. -/
def digitChar (n : Nat) : Char := Char.ofNat (48 + n)

/-- Two-digit zero-padded decimal rendering (CPython `%02d` / `:02d` for `n < 100`). -/
def pad2 (n : Nat) : String := ⟨[digitChar (n / 10), digitChar (n % 10)]⟩

/-- Three-digit zero-padded decimal rendering (CPython `:03d` for `n < 1000`),
used for the day-of-year field of ephemeris file names. -/
def pad3 (n : Nat) : String := ⟨digitChar (n / 100) :: (pad2 (n % 100)).data⟩

/-- Four-digit decimal rendering of a year (CPython `str(year)` and `%Y` for
`1000 ≤ year ≤ 9999`, the range this pipeline handles). -/
def pad4 (n : Nat) : String := pad2 (n / 100) ++ pad2 (n % 100)

/-- ASCII lower-casing of one character, as Python `str.lower` acts on the
ASCII path strings this program manipulates. -/
def asciiLower (c : Char) : Char :=
  if 'A' ≤ c ∧ c ≤ 'Z' then Char.ofNat (c.toNat + 32) else c

/-- Model of Python `str.lower()` on ASCII strings (file-system paths here). -/
def strLower (s : String) : String := ⟨s.data.map asciiLower⟩

/-- Model of Python `str.endswith(suffix)`: case-sensitive suffix test. -/
def strEndsWith (s suffix : String) : Bool := suffix.data.isSuffixOf s.data

/-- Path separator; the scripts target Windows (`os.sep` is a backslash). -/
def osSep : String := "\\"

/-- Model of `os.path.join(a, b)` for the relative component names used here. -/
def pathJoin (a b : String) : String := a ++ osSep ++ b

/-- Characters of the last path component: scan the characters, restarting
the accumulator at every separator. -/
def lastComponent : List Char → List Char → List Char
  | [], acc => acc.reverse
  | c :: cs, acc =>
    if c = '\\' then lastComponent cs [] else lastComponent cs (c :: acc)

/-- Model of `os.path.basename`: the part after the last separator. -/
def baseNameOfPath (s : String) : String := ⟨lastComponent s.data []⟩

/-- Leap-year rule of the proleptic Gregorian calendar used by Python
`datetime` (`timetuple().tm_yday` is derived from it). -/
def isLeapYear (y : Nat) : Bool :=
  y % 4 == 0 && (y % 100 != 0 || y % 400 == 0)

/-- Length in days of month `m` (1-based) of year `y`; zero outside 1..12. -/
def daysInMonth (y m : Nat) : Nat :=
  match m with
  | 1 => 31 | 2 => if isLeapYear y then 29 else 28 | 3 => 31
  | 4 => 30 | 5 => 31 | 6 => 30 | 7 => 31 | 8 => 31
  | 9 => 30 | 10 => 31 | 11 => 30 | 12 => 31
  | _ => 0

/-- Days in year `y` that fall strictly before month `m` (1-based). -/
def daysBeforeMonth (y : Nat) : Nat → Nat
  | 0 => 0
  | m + 1 => daysBeforeMonth y m + daysInMonth y m

/-- Calendar timestamp at second precision, the shape of the Python
`datetime.datetime` value a `SimulationRequest` carries. -/
structure DateTime where
  year : Nat
  month : Nat
  day : Nat
  hour : Nat
  minute : Nat
  second : Nat
deriving DecidableEq, Repr

/-- Well-formedness of a timestamp: in-range calendar fields, and a year
rendered with four decimal digits (the range Python formats as-is). -/
def ValidDT (t : DateTime) : Prop :=
  1000 ≤ t.year ∧ t.year ≤ 9999 ∧ 1 ≤ t.month ∧ t.month ≤ 12 ∧
  1 ≤ t.day ∧ t.day ≤ daysInMonth t.year t.month ∧
  t.hour < 24 ∧ t.minute < 60 ∧ t.second < 60

instance (t : DateTime) : Decidable (ValidDT t) := by
  unfold ValidDT; infer_instance

/-- Source `get_day_of_year` (V2 line 44): `date.timetuple().tm_yday`, the
1-based ordinal day of the date within its calendar year. -/
def get_day_of_year (t : DateTime) : Nat :=
  daysBeforeMonth t.year t.month + t.day

/-- A CPython float value, represented by its observable renderings - the
two ways this program ever consumes a coordinate: `reprStr` is `str(x)`
(the shortest round-trip decimal form, e.g. `str(float("710")) = "710.0"`,
`str(float("-22.9519")) = "-22.9519"`), and `fixed4` is `format(x, ".4f")`
(fixed-point with four decimals, e.g. `"710.0000"`, `"-22.9519"`).
CPython `str` is injective on floats, so two floats are equal exactly when
their `reprStr` fields coincide; the binary value itself is never consumed
by the scripts in any other way. -/
structure PyFloat where
  reprStr : String
  fixed4 : String
deriving DecidableEq, Repr

/-- Parameters of one simulation run as gathered by V2 `main`: parsed
coordinates (floats) and a start timestamp. -/
structure SimRequest where
  lat : PyFloat
  lon : PyFloat
  alt : PyFloat
  time : DateTime
deriving DecidableEq, Repr

/-- Source constant `NASA_CDDIS_URL` (V2 line 23). -/
def NASA_CDDIS_URL : String := "https://cddis.nasa.gov/archive/gnss/data/daily/"

/-- Source constant `SAMPLE_RATE` (V2 line 33), in hertz. -/
def SAMPLE_RATE : Nat := 2600000

/-- Source constant `CENTER_FREQUENCY` (V2 line 34), in hertz. -/
def CENTER_FREQUENCY : Nat := 1575420000

/-- Source constant `MIN_EPHEMERIS_FILE_SIZE_KB` (V2 line 38). -/
def MIN_EPHEMERIS_FILE_SIZE_KB : Nat := 100

/-- Timeout passed to every `requests.get` call (V2 line 176), in seconds. -/
def HTTP_TIMEOUT_SECONDS : Nat := 15

/-- Timeout passed to `subprocess.run` for the external tool (V2 line 312),
in seconds. -/
def TOOL_TIMEOUT_SECONDS : Nat := 300

/-- Python `str(year)` for the four-digit years this pipeline handles. -/
def yearStr (y : Nat) : String := pad4 y

/-- Source V2 line 136: `year_short = str(year)[2:]`, character slicing. -/
def yearShort (y : Nat) : String := ⟨(yearStr y).data.drop 2⟩

/-- Source V2 line 134 with line 139: the uncompressed ephemeris file name
`brdc{day_str}0.{year_short}n` where `day_str` is `f"{day_of_year:03d}"`. -/
def brdcFilename (t : DateTime) : String :=
  "brdc" ++ pad3 (get_day_of_year t) ++ "0." ++ yearShort t.year ++ "n"

/-- Source V2 `strftime("%Y/%m/%d,%H:%M:%S")` (line 291): the `-t` argument. -/
def fmtTimeParam (t : DateTime) : String :=
  pad4 t.year ++ "/" ++ pad2 t.month ++ "/" ++ pad2 t.day ++ "," ++
  pad2 t.hour ++ ":" ++ pad2 t.minute ++ ":" ++ pad2 t.second

/-- Source V2 `strftime("%Y%m%d_%H%M%S")` (line 456): timestamp part of the
output artifact base name. -/
def fmtCompactTime (t : DateTime) : String :=
  pad4 t.year ++ pad2 t.month ++ pad2 t.day ++ "_" ++
  pad2 t.hour ++ pad2 t.minute ++ pad2 t.second

/-- Source V2 line 456: `output_filename_base =
f"gps_sim_{latitude:.4f}_{longitude:.4f}_{sim_datetime.strftime(time_format)}"`.
Altitude does not occur in it. -/
def output_filename_base (r : SimRequest) : String :=
  "gps_sim_" ++ r.lat.fixed4 ++ "_" ++ r.lon.fixed4 ++ "_" ++ fmtCompactTime r.time

/-- Content of a file on disk.  A gzip stream is represented
constructively: `gz n p` is a gzip encoding whose on-disk size is `n`
bytes and whose decoded payload is `p` (standard gzip decoding recovers
exactly the payload that was compressed; decoding a non-gzip stream
fails).  `text s` is a file written through Python text mode. -/
inductive FileData where
  | raw (bytes : List Nat)
  | gz (compressedLen : Nat) (payload : List Nat)
  | text (s : String)
deriving DecidableEq, Repr

/-- Size in bytes as reported by `os.path.getsize`. -/
def FileData.size : FileData → Nat
  | .raw bytes => bytes.length
  | .gz compressedLen _ => compressedLen
  | .text s => s.length

/-- Model of `gzip.open(...).read()`: succeeds exactly on gzip streams and
returns the decompressed payload. -/
def gunzipData : FileData → Option (List Nat)
  | .gz _ payload => some payload
  | _ => none

/-- Flat file store: path to content.  Directories are tracked separately
where a component needs them. -/
def FS := String → Option FileData

/-- Write (create or overwrite) one file, as `open(path, "wb")` plus write. -/
def fsWrite (path : String) (d : FileData) (fs : FS) : FS :=
  fun p => if p = path then some d else fs p

/-- Remove one file, as `os.remove(path)`. -/
def fsErase (path : String) (fs : FS) : FS :=
  fun p => if p = path then none else fs p

/-- Outcome of one HTTP GET as the script observes it: `failure` covers a
non-2xx status (which `raise_for_status` turns into an exception), a
connection error and a timeout - all caught by the same handler; `success`
carries the response body that gets streamed to disk. -/
inductive HttpResult where
  | failure
  | success (body : FileData)
deriving DecidableEq, Repr

/-- The network, keyed by URL. -/
def Net := String → HttpResult

/-- Observable event of the Acquirer: one GET issued against a URL with
its timeout in seconds. -/
inductive Ev where
  | get (url : String) (timeoutS : Nat)
deriving DecidableEq, Repr

/-- Timeout carried by an event. -/
def Ev.timeoutOf : Ev → Nat
  | .get _ t => t

/-- Source V2 lines 139-157: the three candidate file names for a date, in
priority order - uncompressed, gzip-compressed, legacy-compressed. -/
def candidateFilenames (t : DateTime) : List String :=
  [brdcFilename t, brdcFilename t ++ ".gz", brdcFilename t ++ ".Z"]

/-- Source V2 lines 144-146: the archive URL for one candidate file name,
`f"{NASA_CDDIS_URL}{year}/{day_str}/brdc/{filename}"`. -/
def candidateUrl (t : DateTime) (filename : String) : String :=
  NASA_CDDIS_URL ++ yearStr t.year ++ "/" ++ pad3 (get_day_of_year t) ++
  "/brdc/" ++ filename

/-- Source V2 lines 151-157: the URLs to try, in order, each paired with
the temporary path its body is written to (`temp_paths`). -/
def urlsToTry (t : DateTime) (output_path : String) : List (String × String) :=
  [(candidateUrl t (brdcFilename t), output_path),
   (candidateUrl t (brdcFilename t ++ ".gz"), output_path ++ ".gz"),
   (candidateUrl t (brdcFilename t ++ ".Z"), output_path ++ ".Z")]

/-- Source V2 lines 171-204, the download loop: for each URL in order, GET
with a 15-second timeout; on an exception move on; on success write the
body to the candidate temp path, then delete it and move on if it is
smaller than the 100 KB threshold (`os.path.getsize(...) / 1024 <
MIN_EPHEMERIS_FILE_SIZE_KB`), otherwise stop with it.  Returns the chosen
temp path (if any), the file store, and the GETs issued in order. -/
def downloadLoop (net : Net) : List (String × String) → FS →
    Option String × FS × List Ev
  | [], fs => (none, fs, [])
  | (url, tmp) :: rest, fs =>
    match net url with
    | .failure =>
      let (r, fs', evs) := downloadLoop net rest fs
      (r, fs', .get url HTTP_TIMEOUT_SECONDS :: evs)
    | .success body =>
      let fs1 := fsWrite tmp body fs
      if body.size < MIN_EPHEMERIS_FILE_SIZE_KB * 1024 then
        let (r, fs', evs) := downloadLoop net rest (fsErase tmp fs1)
        (r, fs', .get url HTTP_TIMEOUT_SECONDS :: evs)
      else
        (some tmp, fs1, [.get url HTTP_TIMEOUT_SECONDS])

/-- Source V2 `download_ephemeris_file` (lines 119-232).  After the loop:
no successful candidate means failure; otherwise, if the chosen temp
path lower-cased ends with ".gz" or ".Z" (transcribed verbatim - note the
second test compares a lower-cased string against an upper-case suffix),
gunzip it to `output_path` and delete the intermediate, with a failed
decode removing the partial output and failing; otherwise the downloaded
file is already the final output and `output_path` is returned. -/
def download_ephemeris_file (net : Net) (target_date : DateTime)
    (output_path : String) (fs : FS) : Option String × FS × List Ev :=
  match downloadLoop net (urlsToTry target_date output_path) fs with
  | (none, fs', evs) => (none, fs', evs)
  | (some tmp, fs', evs) =>
    if strEndsWith (strLower tmp) ".gz" || strEndsWith (strLower tmp) ".Z" then
      match gunzipData ((fs' tmp).getD (.raw [])) with
      | some payload =>
        (some output_path, fsErase tmp (fsWrite output_path (.raw payload) fs'), evs)
      | none =>
        (none, fsErase output_path fs', evs)
    else
      (some output_path, fs', evs)

/-- Record of the one child-process invocation `subprocess.run(command,
capture_output=True, text=True, check=True, timeout=300)` issues: the
argument vector and the wall-clock timeout in seconds. -/
structure ToolRun where
  argv : List String
  timeoutS : Nat
deriving DecidableEq, Repr

/-- Outcome of running the external tool, as the script observes it
through `subprocess.run` exceptions: the executable may be missing
(`FileNotFoundError`), the run may exceed the timeout
(`subprocess.TimeoutExpired`), or the process completes with an exit code
and captured stdout/stderr (`check=True` raises `CalledProcessError`
exactly when the exit code is non-zero). -/
inductive ExecOutcome where
  | notFound
  | timedOut
  | completed (exitCode : Int) (stdout stderr : String)
deriving DecidableEq, Repr

/-- Diagnostics the Generator prints, one constructor per distinct
handler in V2 lines 313-333. -/
inductive GenDiag where
  | toolOutput (stdout : String)
  | toolStderr (s : String)
  | exeNotFound (exePath : String)
  | execError (exitCode : Int) (stderr : String)
  | execTimeout
deriving DecidableEq, Repr

/-- Source V2 lines 294-301: the exact argument vector handed to the
external tool. -/
def gpsSimCommand (exe ephemeris_file_path : String) (lat lon alt : PyFloat)
    (sim_datetime : DateTime) (output_c8_path : String) : List String :=
  [exe,
   "-e", ephemeris_file_path,
   "-l", lat.reprStr ++ "," ++ lon.reprStr ++ "," ++ alt.reprStr,
   "-b", "8",
   "-t", fmtTimeParam sim_datetime,
   "-o", output_c8_path]

/-- Source V2 lines 341-342: the sidecar configuration file content, two
newline-terminated lines built from the two process-wide constants. -/
def sidecarText : String :=
  "sample_rate=" ++ toString SAMPLE_RATE ++ "\n" ++
  "center_frequency=" ++ toString CENTER_FREQUENCY ++ "\n"

/-- Everything one Generator call produces: the returned artifact pair
(or failure), the file store afterwards, the printed diagnostics and the
child-process invocation record. -/
structure GenResult where
  artifacts : Option (String × String)
  fs : FS
  diags : List GenDiag
  run : ToolRun

/-- Source V2 `generate_gps_file` (lines 280-345): build the command,
run the external tool, and on exit code 0 write the sidecar
configuration file and return both artifact paths; on
`FileNotFoundError`, non-zero exit (`CalledProcessError`) or timeout
return failure (`None`) with the handler's diagnostic, having written
nothing. -/
def generate_gps_file (toolOutcome : ExecOutcome)
    (gps_sdr_sim_exe_path ephemeris_file_path : String)
    (lat lon alt : PyFloat) (sim_datetime : DateTime)
    (output_base outputDir : String) (fs : FS) : GenResult :=
  let output_c8_path := pathJoin outputDir (output_base ++ ".c8")
  let command := gpsSimCommand gps_sdr_sim_exe_path ephemeris_file_path
    lat lon alt sim_datetime output_c8_path
  let run : ToolRun := ⟨command, TOOL_TIMEOUT_SECONDS⟩
  match toolOutcome with
  | .notFound => ⟨none, fs, [.exeNotFound gps_sdr_sim_exe_path], run⟩
  | .timedOut => ⟨none, fs, [.execTimeout], run⟩
  | .completed exitCode stdout stderr =>
    if exitCode ≠ 0 then ⟨none, fs, [.execError exitCode stderr], run⟩
    else
      let output_txt_path := pathJoin outputDir (output_base ++ ".txt")
      ⟨some (output_c8_path, output_txt_path),
       fsWrite output_txt_path (.text sidecarText) fs,
       (if stderr ≠ "" then [.toolOutput stdout, .toolStderr stderr]
        else [.toolOutput stdout]),
       run⟩

/-- File store together with the set of directories that exist, for the
Distributor (which creates a folder and tests path existence). -/
structure DiskFS where
  files : FS
  dirs : String → Bool

/-- Model of `os.path.exists`: true for an existing file or directory. -/
def pathExists (fs : DiskFS) (p : String) : Bool :=
  fs.dirs p || (fs.files p).isSome

/-- Model of `os.makedirs(p, exist_ok=True)`: when a regular file occupies
the path, `exist_ok` does not help (it only suppresses the error for an
existing directory) and `FileExistsError` is raised - modelled as `none`;
otherwise the directory is ensured, with no error and no change when it
already exists. -/
def makeDirs (p : String) (fs : DiskFS) : Option DiskFS :=
  if (fs.files p).isSome then none
  else some ⟨fs.files, fun q => if q = p then true else fs.dirs q⟩

/-- Outcome of one Distributor call: `ok` is a `return True`, `failed` a
`return False`, and `raised` an exception that escapes the function
(V2 line 387 runs `os.makedirs` outside the `try`, so its
`FileExistsError` is unhandled). -/
inductive CopyResult where
  | ok
  | failed
  | raised
deriving DecidableEq, Repr

/-- Source V2 `copy_files_to_sd_card` (lines 372-399): return False if the
root is not accessible; then `os.makedirs(root/gps, exist_ok=True)` -
outside the `try`, so a file occupying that path escapes as an unhandled
`FileExistsError` (`raised`); then, inside the `try`, copy each file into
the folder with `shutil.copy` (destination name: the source base name
inside the folder, overwriting).  A copy whose source is missing raises
`FileNotFoundError`, and a source that already is its own destination
raises `SameFileError` before anything is written; both are caught by the
`except` handler, which returns False. -/
def copy_files_to_sd_card (c8_file txt_file sd_card_root_path : String)
    (fs : DiskFS) : CopyResult × DiskFS :=
  let gps_folder_on_sd := pathJoin sd_card_root_path "gps"
  if pathExists fs sd_card_root_path then
    match makeDirs gps_folder_on_sd fs with
    | none => (.raised, fs)
    | some fs1 =>
      match fs1.files c8_file with
      | none => (.failed, fs1)
      | some d1 =>
        if c8_file = pathJoin gps_folder_on_sd (baseNameOfPath c8_file) then
          (.failed, fs1)
        else
          let fs2 : DiskFS :=
            ⟨fsWrite (pathJoin gps_folder_on_sd (baseNameOfPath c8_file)) d1
              fs1.files,
             fs1.dirs⟩
          match fs2.files txt_file with
          | none => (.failed, fs2)
          | some d2 =>
            if txt_file = pathJoin gps_folder_on_sd (baseNameOfPath txt_file) then
              (.failed, fs2)
            else
              (.ok,
               ⟨fsWrite (pathJoin gps_folder_on_sd (baseNameOfPath txt_file)) d2
                  fs2.files,
                fs2.dirs⟩)
  else
    (.failed, fs)

/-- Tokens of the Python surface syntax, restricted to the kinds occurring
in the V1 `command` list literal and in the expression constructs that can
surround them. -/
inductive PTok where
  | name (s : String)
  | strLit (s : String)
  | fstrLit (s : String)
  | numLit (s : String)
  | lpar | rpar | lbrk | rbrk | comma | eqSign | kwLambda | colon | dot | minus
deriving DecidableEq, Repr

/-- Syntactic categories for token-level derivations: an expression, a call
argument list, the element list of a list/tuple display, and a lambda
parameter list. -/
inductive PyCat where
  | expr | args | elems | params
deriving DecidableEq, Repr

/-- Token-level derivation judgment for the Python expression grammar.
The Python parser is not part of this repository, so the grammar is
modelled: the productions cover atoms, unary minus, attribute access,
calls with positional and keyword arguments, list and parenthesized
displays, and lambda.  The modelling commitment that matters for the
syntax-error claim is where a bare `=` token can occur inside an
expression: in the full Python grammar it is produced only by keyword
arguments (inside the parentheses of a call) and by lambda parameter
defaults (after the `lambda` keyword); every other `=` belongs to a
statement, not an expression.  Both producers are included below, so a
token string containing `=` outside parentheses and without `lambda` is
underivable here exactly as it is unparsable in Python. -/
inductive PyTks : PyCat → List PTok → Prop where
  | nameE (s : String) : PyTks .expr [.name s]
  | strE (s : String) : PyTks .expr [.strLit s]
  | fstrE (s : String) : PyTks .expr [.fstrLit s]
  | numE (s : String) : PyTks .expr [.numLit s]
  | negE {t} : PyTks .expr t → PyTks .expr (.minus :: t)
  | attrE (s : String) {t} : PyTks .expr t → PyTks .expr (t ++ [.dot, .name s])
  | callE {f a} : PyTks .expr f → PyTks .args a →
      PyTks .expr (f ++ .lpar :: a ++ [.rpar])
  | listE {l} : PyTks .elems l → PyTks .expr (.lbrk :: l ++ [.rbrk])
  | parenE {l} : PyTks .elems l → PyTks .expr (.lpar :: l ++ [.rpar])
  | lambdaE {p b} : PyTks .params p → PyTks .expr b →
      PyTks .expr (.kwLambda :: p ++ .colon :: b)
  | argsNil : PyTks .args []
  | argsOnePos {e} : PyTks .expr e → PyTks .args e
  | argsOneKw (s : String) {e} : PyTks .expr e →
      PyTks .args (.name s :: .eqSign :: e)
  | argsConsPos {e rest} : PyTks .expr e → PyTks .args rest →
      PyTks .args (e ++ .comma :: rest)
  | argsConsKw (s : String) {e rest} : PyTks .expr e → PyTks .args rest →
      PyTks .args (.name s :: .eqSign :: e ++ .comma :: rest)
  | elemsNil : PyTks .elems []
  | elemsOne {e} : PyTks .expr e → PyTks .elems e
  | elemsTrailing {e} : PyTks .expr e → PyTks .elems (e ++ [.comma])
  | elemsCons {e rest} : PyTks .expr e → PyTks .elems rest →
      PyTks .elems (e ++ .comma :: rest)
  | paramsNil : PyTks .params []
  | paramsOne (s : String) : PyTks .params [.name s]
  | paramsOneDef (s : String) {e} : PyTks .expr e →
      PyTks .params (.name s :: .eqSign :: e)
  | paramsCons (s : String) {rest} : PyTks .params rest →
      PyTks .params (.name s :: .comma :: rest)
  | paramsConsDef (s : String) {e rest} : PyTks .expr e → PyTks .params rest →
      PyTks .params (.name s :: .eqSign :: e ++ .comma :: rest)

/-- Parenthesis-depth contribution of one token. -/
def parDelta : PTok → Int
  | .lpar => 1
  | .rpar => -1
  | _ => 0

/-- Net parenthesis depth of a token string. -/
def netDepth : List PTok → Int
  | [] => 0
  | tok :: ts => parDelta tok + netDepth ts

/-- Scan check: every `=` token occurs at parenthesis depth at least one,
starting the scan at depth `d`. -/
def eqOK : List PTok → Int → Bool
  | [], _ => true
  | .eqSign :: ts, d => decide (1 ≤ d) && eqOK ts d
  | tok :: ts, d => eqOK ts (d + parDelta tok)

/-- Minimum parenthesis depth at which a category can be derived while
keeping every `=` shielded: call arguments and lambda parameters sit at
depth one or more, expressions and display elements anywhere. -/
def reqDepth : PyCat → Int
  | .args => 1
  | .params => 1
  | _ => 0

/-- Token string of the V1 list literal at lines 132-138 of
`generate_gps_sim_V1.py` (the value assigned to `command`), first element
`GPS_SDR_SIM_EXECUTABLE = r"F:\GPS_Simulator_Python\gps-sdr-sim_.exe"`.
The f-string literal of the `-l` argument is one token; its content is
irrelevant to the parse question. -/
def v1CommandListTokens : List PTok :=
  [.lbrk,
   .name "GPS_SDR_SIM_EXECUTABLE", .eqSign,
   .strLit "F:\\GPS_Simulator_Python\\gps-sdr-sim_.exe", .comma,
   .strLit "-e", .comma, .name "ephemeris_file_path", .comma,
   .strLit "-l", .comma, .fstrLit "loc", .comma,
   .strLit "-b", .comma, .strLit "8", .comma,
   .strLit "-o", .comma, .name "output_c8_path",
   .rbrk]

theorem yearShort_eq (y : Nat) : yearShort y = pad2 (y % 100) := rfl

theorem get_day_of_year_le366 (t : DateTime) (h : ValidDT t) :
    get_day_of_year t ≤ 366 := by
  obtain ⟨_, _, h3, h4, _, h6, _⟩ := h
  unfold get_day_of_year
  interval_cases ht : t.month <;>
    cases hl : isLeapYear t.year <;>
      simp [daysBeforeMonth, daysInMonth, hl, ht] at h6 ⊢ <;> omega

/-- The day of the example date 2025-06-05 within its year. -/
theorem get_day_of_year_example : get_day_of_year ⟨2025, 6, 5, 10, 0, 0⟩ = 156 := by
  decide

/-- C4: for every valid target date, the Acquirer derives exactly three
candidate file names in the order uncompressed, `.gz`, `.Z`, built from the
3-digit zero-padded day-of-year (which is at most 366) and the last two
digits of the year, each mapped to a URL under the fixed archive path
`{base}/{year}/{dayStr}/brdc/{filename}`; the date 2025-06-05 yields the
file name `brdc1560.25n`. -/
theorem c4_candidate_names (t : DateTime) (h : ValidDT t) :
    candidateFilenames t =
      [brdcFilename t, brdcFilename t ++ ".gz", brdcFilename t ++ ".Z"] ∧
    brdcFilename t =
      "brdc" ++ pad3 (get_day_of_year t) ++ "0." ++ pad2 (t.year % 100) ++ "n" ∧
    get_day_of_year t ≤ 366 ∧
    (∀ output_path : String, urlsToTry t output_path =
      [(NASA_CDDIS_URL ++ yearStr t.year ++ "/" ++ pad3 (get_day_of_year t) ++
          "/brdc/" ++ brdcFilename t, output_path),
       (NASA_CDDIS_URL ++ yearStr t.year ++ "/" ++ pad3 (get_day_of_year t) ++
          "/brdc/" ++ (brdcFilename t ++ ".gz"), output_path ++ ".gz"),
       (NASA_CDDIS_URL ++ yearStr t.year ++ "/" ++ pad3 (get_day_of_year t) ++
          "/brdc/" ++ (brdcFilename t ++ ".Z"), output_path ++ ".Z")]) ∧
    brdcFilename ⟨2025, 6, 5, 10, 0, 0⟩ = "brdc1560.25n" := by
  refine ⟨rfl, rfl, get_day_of_year_le366 t h, fun _ => rfl, by decide⟩

/-- Witness for `c4_candidate_names` at the example date 2025-06-05. -/
theorem c4_candidate_names_witness :
    ValidDT ⟨2025, 6, 5, 10, 0, 0⟩ ∧
    brdcFilename ⟨2025, 6, 5, 10, 0, 0⟩ = "brdc1560.25n" :=
  ⟨by decide, (c4_candidate_names ⟨2025, 6, 5, 10, 0, 0⟩ (by decide)).2.2.2.2⟩

/-- Latitude of the example request, parsed by `float("-22.9519")`; CPython
renders this value back as `"-22.9519"` under both `str` and `".4f"`. -/
def latRio : PyFloat := ⟨"-22.9519", "-22.9519"⟩

/-- Longitude of the example request, parsed by `float("-43.2105")`. -/
def lonRio : PyFloat := ⟨"-43.2105", "-43.2105"⟩

/-- Altitude of the example request, parsed by `float("710")`: the value is
the float 710.0, which CPython renders as `"710.0"` (`str`) and
`"710.0000"` (`".4f"`); no float renders under `str` as the bare `"710"`. -/
def altRio : PyFloat := ⟨"710.0", "710.0000"⟩

/-- Example start timestamp 2025-06-05T10:00:00. -/
def exDate : DateTime := ⟨2025, 6, 5, 10, 0, 0⟩

/-- C1 counterexample: for the request (lat=-22.9519, lon=-43.2105,
alt=710, time=2025-06-05T10:00:00) the built location argument is the
string `-22.9519,-43.2105,710.0` - the altitude is a float and renders
with a trailing `.0` - not `-22.9519,-43.2105,710` as claimed. -/
theorem c1_location_argument_counterexample :
    (gpsSimCommand "C:\\gps-sdr-sim.exe" "brdc1560.25n" latRio lonRio altRio
        exDate "out.c8").get? 4 = some "-22.9519,-43.2105,710.0" ∧
    "-22.9519,-43.2105,710.0" ≠ "-22.9519,-43.2105,710" := by
  exact ⟨by decide, by decide⟩

/-- C1 (amended): the Generator invokes the external tool with exactly the
argument set `-e <ephemerisPath> -l "<lat>,<lon>,<alt>" -b 8 -t
"<YYYY/MM/DD,HH:MM:SS>" -o <iqCapturePath>` in that order; for the
example request the location argument is exactly
`-22.9519,-43.2105,710.0` (the float altitude renders with `.0`) and the
time argument is exactly `2025/06/05,10:00:00`. -/
theorem c1_generator_command_amended :
    (∀ (toolOutcome : ExecOutcome) (exe eph : String) (lat lon alt : PyFloat)
       (t : DateTime) (base outDir : String) (fs : FS),
      (generate_gps_file toolOutcome exe eph lat lon alt t base outDir fs).run.argv =
        [exe,
         "-e", eph,
         "-l", lat.reprStr ++ "," ++ lon.reprStr ++ "," ++ alt.reprStr,
         "-b", "8",
         "-t", fmtTimeParam t,
         "-o", pathJoin outDir (base ++ ".c8")]) ∧
    (gpsSimCommand "C:\\gps-sdr-sim.exe" "brdc1560.25n" latRio lonRio altRio
        exDate "out.c8").get? 4 = some "-22.9519,-43.2105,710.0" ∧
    (gpsSimCommand "C:\\gps-sdr-sim.exe" "brdc1560.25n" latRio lonRio altRio
        exDate "out.c8").get? 8 = some "2025/06/05,10:00:00" := by
  refine ⟨fun toolOutcome exe eph lat lon alt t base outDir fs => ?_, by decide, by decide⟩
  cases toolOutcome with
  | notFound => rfl
  | timedOut => rfl
  | completed exitCode stdout stderr =>
    simp only [generate_gps_file, gpsSimCommand]
    split <;> rfl

/-- C7: on every successful run, whatever the request parameters, the
Generator writes the sidecar configuration file with exactly the content
`sample_rate=2600000\ncenter_frequency=1575420000\n`, built from the two
process-wide constants, and returns both artifact paths. -/
theorem c7_sidecar_content :
    (∀ (stdout stderr : String) (exe eph : String) (lat lon alt : PyFloat)
       (t : DateTime) (base outDir : String) (fs : FS),
      (generate_gps_file (.completed 0 stdout stderr) exe eph lat lon alt t
          base outDir fs).artifacts =
        some (pathJoin outDir (base ++ ".c8"), pathJoin outDir (base ++ ".txt")) ∧
      (generate_gps_file (.completed 0 stdout stderr) exe eph lat lon alt t
          base outDir fs).fs (pathJoin outDir (base ++ ".txt")) =
        some (.text sidecarText)) ∧
    sidecarText =
      "sample_rate=" ++ toString SAMPLE_RATE ++ "\n" ++
      "center_frequency=" ++ toString CENTER_FREQUENCY ++ "\n" ∧
    sidecarText = "sample_rate=2600000\ncenter_frequency=1575420000\n" := by
  refine ⟨fun stdout stderr exe eph lat lon alt t base outDir fs => ⟨?_, ?_⟩, rfl, by decide⟩
  · simp [generate_gps_file]
  · simp [generate_gps_file, fsWrite]

theorem netDepth_append (a b : List PTok) :
    netDepth (a ++ b) = netDepth a + netDepth b := by
  induction a with
  | nil => simp [netDepth]
  | cons t ts ih => simp [netDepth, ih]; ring

theorem netDepth_of_PyTks {c : PyCat} {t : List PTok} (h : PyTks c t) :
    netDepth t = 0 := by
  induction h <;> simp_all [netDepth, netDepth_append, parDelta]

theorem eqOK_append (a b : List PTok) (d : Int) :
    eqOK (a ++ b) d = (eqOK a d && eqOK b (d + netDepth a)) := by
  induction a generalizing d with
  | nil => simp [eqOK, netDepth]
  | cons t ts ih =>
    cases t <;> simp [eqOK, netDepth, parDelta, ih, Bool.and_assoc, add_assoc]

theorem eqShielded_of_PyTks {c : PyCat} {t : List PTok} (h : PyTks c t) :
    PTok.kwLambda ∉ t → ∀ d : Int, reqDepth c ≤ d → eqOK t d = true := by
  induction h with
  | nameE s => exact fun _ d _ => rfl
  | strE s => exact fun _ d _ => rfl
  | fstrE s => exact fun _ d _ => rfl
  | numE s => exact fun _ d _ => rfl
  | negE ht ih =>
    rename_i t0
    intro hmem d hd
    have hm : PTok.kwLambda ∉ t0 := fun hx => hmem (by simp [hx])
    simpa [eqOK, parDelta] using ih hm d hd
  | attrE s ht ih =>
    rename_i t0
    intro hmem d hd
    have hm : PTok.kwLambda ∉ t0 := fun hx => hmem (by simp [hx])
    simp [ih hm d hd, eqOK, eqOK_append, netDepth, parDelta,
      netDepth_of_PyTks ht]
  | callE hf ha ihf iha =>
    rename_i f0 a0
    intro hmem d hd
    have hd0 : (0 : Int) ≤ d := hd
    have hmf : PTok.kwLambda ∉ f0 := fun hx => hmem (by simp [hx])
    have hma : PTok.kwLambda ∉ a0 := fun hx => hmem (by simp [hx])
    have h0 : eqOK f0 d = true := ihf hmf d hd
    have h1 : eqOK a0 (d + 1) = true :=
      iha hma (d + 1) (show (1 : Int) ≤ d + 1 by omega)
    simp [eqOK, netDepth, netDepth_append, parDelta, eqOK_append, h0, h1,
      netDepth_of_PyTks hf, netDepth_of_PyTks ha]
  | listE hl ih =>
    rename_i l0
    intro hmem d hd
    have hm : PTok.kwLambda ∉ l0 := fun hx => hmem (by simp [hx])
    have h1 : eqOK l0 d = true := ih hm d hd
    simp [eqOK, netDepth, parDelta, eqOK_append, h1, netDepth_of_PyTks hl]
  | parenE hl ih =>
    rename_i l0
    intro hmem d hd
    have hd0 : (0 : Int) ≤ d := hd
    have hm : PTok.kwLambda ∉ l0 := fun hx => hmem (by simp [hx])
    have h1 : eqOK l0 (d + 1) = true :=
      ih hm (d + 1) (show (0 : Int) ≤ d + 1 by omega)
    simp [eqOK, netDepth, parDelta, eqOK_append, h1, netDepth_of_PyTks hl]
  | lambdaE hp hb ihp ihb =>
    intro hmem _ _
    exact absurd (by simp) hmem
  | argsNil => exact fun _ d _ => rfl
  | argsOnePos he ih =>
    intro hmem d hd
    have hd1 : (1 : Int) ≤ d := hd
    exact ih hmem d (show (0 : Int) ≤ d by omega)
  | argsOneKw s he ih =>
    rename_i e0
    intro hmem d hd
    have hd1 : (1 : Int) ≤ d := hd
    have hm : PTok.kwLambda ∉ e0 := fun hx => hmem (by simp [hx])
    have h1 := ih hm d (show (0 : Int) ≤ d by omega)
    simp [eqOK, parDelta, h1, hd1]
  | argsConsPos he hr ihe ihr =>
    rename_i e0 rest0
    intro hmem d hd
    have hd1 : (1 : Int) ≤ d := hd
    have hme : PTok.kwLambda ∉ e0 := fun hx => hmem (by simp [hx])
    have hmr : PTok.kwLambda ∉ rest0 := fun hx => hmem (by simp [hx])
    have h1 := ihe hme d (show (0 : Int) ≤ d by omega)
    have h2 := ihr hmr d hd
    simp [eqOK_append, eqOK, netDepth, parDelta, h1, h2, netDepth_of_PyTks he]
  | argsConsKw s he hr ihe ihr =>
    rename_i e0 rest0
    intro hmem d hd
    have hd1 : (1 : Int) ≤ d := hd
    have hme : PTok.kwLambda ∉ e0 := fun hx => hmem (by simp [hx])
    have hmr : PTok.kwLambda ∉ rest0 := fun hx => hmem (by simp [hx])
    have h1 := ihe hme d (show (0 : Int) ≤ d by omega)
    have h2 := ihr hmr d hd
    simp [eqOK, eqOK_append, netDepth, parDelta, h1, h2, hd1, netDepth_of_PyTks he]
  | elemsNil => exact fun _ d _ => rfl
  | elemsOne he ih =>
    intro hmem d hd
    exact ih hmem d hd
  | elemsTrailing he ih =>
    rename_i e0
    intro hmem d hd
    have hm : PTok.kwLambda ∉ e0 := fun hx => hmem (by simp [hx])
    have h1 := ih hm d hd
    simp [eqOK_append, eqOK, netDepth, parDelta, h1, netDepth_of_PyTks he]
  | elemsCons he hr ihe ihr =>
    rename_i e0 rest0
    intro hmem d hd
    have hme : PTok.kwLambda ∉ e0 := fun hx => hmem (by simp [hx])
    have hmr : PTok.kwLambda ∉ rest0 := fun hx => hmem (by simp [hx])
    have h1 := ihe hme d hd
    have h2 := ihr hmr d hd
    simp [eqOK_append, eqOK, netDepth, parDelta, h1, h2, netDepth_of_PyTks he]
  | paramsNil => exact fun _ d _ => rfl
  | paramsOne s => exact fun _ d _ => rfl
  | paramsOneDef s he ih =>
    rename_i e0
    intro hmem d hd
    have hd1 : (1 : Int) ≤ d := hd
    have hm : PTok.kwLambda ∉ e0 := fun hx => hmem (by simp [hx])
    have h1 := ih hm d (show (0 : Int) ≤ d by omega)
    simp [eqOK, parDelta, h1, hd1]
  | paramsCons s hr ih =>
    rename_i rest0
    intro hmem d hd
    have hm : PTok.kwLambda ∉ rest0 := fun hx => hmem (by simp [hx])
    have h1 := ih hm d hd
    simp [eqOK, parDelta, h1]
  | paramsConsDef s he hr ihe ihr =>
    rename_i e0 rest0
    intro hmem d hd
    have hd1 : (1 : Int) ≤ d := hd
    have hme : PTok.kwLambda ∉ e0 := fun hx => hmem (by simp [hx])
    have hmr : PTok.kwLambda ∉ rest0 := fun hx => hmem (by simp [hx])
    have h1 := ihe hme d (show (0 : Int) ≤ d by omega)
    have h2 := ihr hmr d hd
    simp [eqOK, eqOK_append, netDepth, parDelta, h1, h2, hd1, netDepth_of_PyTks he]

/-- C10: the V1 `command` list literal contains a bare `=` token (the
assignment `GPS_SDR_SIM_EXECUTABLE = r"F:..."` written as a list element)
at parenthesis depth zero and with no `lambda` keyword, so its token
string is not derivable as a Python expression: the module fails to
parse, and no function in `generate_gps_sim_V1.py` can run at all. -/
theorem c10_v1_syntax_error :
    PTok.eqSign ∈ v1CommandListTokens ∧ ¬ PyTks .expr v1CommandListTokens := by
  refine ⟨by decide, fun h => ?_⟩
  have h1 := eqShielded_of_PyTks h (by decide) 0 (by decide)
  exact absurd h1 (by decide)

/-- Empty file store, used as a concrete starting state in witnesses. -/
def fsEmpty : FS := fun _ => none

/-- C6: every Generator failure is surfaced as its own kind and produces
nothing: a non-zero exit status returns failure with a diagnostic carrying
the captured stderr, a timeout and a missing executable each return
failure with their own distinct diagnostic, and in all three cases no
artifact pair is returned and the file store is untouched (the sidecar
configuration file is not written). -/
theorem c6_generator_failure_kinds (exe eph : String) (lat lon alt : PyFloat)
    (t : DateTime) (base outDir : String) (fs : FS) :
    (∀ (exitCode : Int) (stdout stderr : String), exitCode ≠ 0 →
      generate_gps_file (.completed exitCode stdout stderr) exe eph lat lon alt
          t base outDir fs =
        ⟨none, fs, [.execError exitCode stderr],
         ⟨gpsSimCommand exe eph lat lon alt t (pathJoin outDir (base ++ ".c8")),
          TOOL_TIMEOUT_SECONDS⟩⟩) ∧
    (generate_gps_file .timedOut exe eph lat lon alt t base outDir fs =
      ⟨none, fs, [.execTimeout],
       ⟨gpsSimCommand exe eph lat lon alt t (pathJoin outDir (base ++ ".c8")),
        TOOL_TIMEOUT_SECONDS⟩⟩) ∧
    (generate_gps_file .notFound exe eph lat lon alt t base outDir fs =
      ⟨none, fs, [.exeNotFound exe],
       ⟨gpsSimCommand exe eph lat lon alt t (pathJoin outDir (base ++ ".c8")),
        TOOL_TIMEOUT_SECONDS⟩⟩) ∧
    (∀ (exitCode : Int) (stderr : String),
      GenDiag.execError exitCode stderr ≠ GenDiag.execTimeout ∧
      GenDiag.execError exitCode stderr ≠ GenDiag.exeNotFound exe) ∧
    GenDiag.execTimeout ≠ GenDiag.exeNotFound exe := by
  refine ⟨fun exitCode stdout stderr hne => ?_, rfl, rfl,
    fun exitCode stderr => ⟨by simp, by simp⟩, by simp⟩
  simp only [generate_gps_file, if_pos hne]

/-- Witness for `c6_generator_failure_kinds`: exit code 1 with stderr
text on an empty store. -/
theorem c6_generator_failure_kinds_witness :
    generate_gps_file (.completed 1 "" "bad ephemeris") "exe" "eph"
        ⟨"0.0", "0.0000"⟩ ⟨"0.0", "0.0000"⟩ ⟨"0.0", "0.0000"⟩
        ⟨2025, 6, 5, 10, 0, 0⟩ "base" "D:" fsEmpty =
      ⟨none, fsEmpty, [.execError 1 "bad ephemeris"],
       ⟨gpsSimCommand "exe" "eph" ⟨"0.0", "0.0000"⟩ ⟨"0.0", "0.0000"⟩
          ⟨"0.0", "0.0000"⟩ ⟨2025, 6, 5, 10, 0, 0⟩ (pathJoin "D:" "base.c8"),
        TOOL_TIMEOUT_SECONDS⟩⟩ :=
  (c6_generator_failure_kinds "exe" "eph" ⟨"0.0", "0.0000"⟩ ⟨"0.0", "0.0000"⟩
    ⟨"0.0", "0.0000"⟩ ⟨2025, 6, 5, 10, 0, 0⟩ "base" "D:" fsEmpty).1
    1 "" "bad ephemeris" (by decide)

theorem downloadLoop_evs_timeout (net : Net) (cands : List (String × String))
    (fs : FS) :
    ((downloadLoop net cands fs).2.2.all
      fun ev => ev.timeoutOf == HTTP_TIMEOUT_SECONDS) = true := by
  induction cands generalizing fs with
  | nil => rfl
  | cons c rest ih =>
    obtain ⟨url, tmp⟩ := c
    simp only [downloadLoop]
    split
    · simpa [Ev.timeoutOf] using ih fs
    · split
      · rename_i body heq hcond
        simpa [Ev.timeoutOf] using ih (fsErase tmp (fsWrite tmp body fs))
      · simp [Ev.timeoutOf]

/-- C8: every HTTP GET the Acquirer issues carries the bounded 15-second
timeout, and every external tool invocation by the Generator carries the
bounded 300-second wall-clock timeout. -/
theorem c8_bounded_timeouts :
    (∀ (net : Net) (t : DateTime) (output_path : String) (fs : FS),
      ((download_ephemeris_file net t output_path fs).2.2.all
        fun ev => ev.timeoutOf == HTTP_TIMEOUT_SECONDS) = true) ∧
    HTTP_TIMEOUT_SECONDS = 15 ∧
    (∀ (toolOutcome : ExecOutcome) (exe eph : String) (lat lon alt : PyFloat)
       (t : DateTime) (base outDir : String) (fs : FS),
      (generate_gps_file toolOutcome exe eph lat lon alt t base outDir
        fs).run.timeoutS = TOOL_TIMEOUT_SECONDS) ∧
    TOOL_TIMEOUT_SECONDS = 300 := by
  refine ⟨fun net t output_path fs => ?_, rfl,
    fun toolOutcome exe eph lat lon alt t base outDir fs => ?_, rfl⟩
  · have h1 := downloadLoop_evs_timeout net (urlsToTry t output_path) fs
    rcases hres : downloadLoop net (urlsToTry t output_path) fs with ⟨r, fs', evs⟩
    rw [hres] at h1
    cases r with
    | none => simpa [download_ephemeris_file, hres] using h1
    | some tmp =>
      simp only [download_ephemeris_file, hres]
      split
      · split <;> simpa using h1
      · simpa using h1
  · cases toolOutcome with
    | notFound => rfl
    | timedOut => rfl
    | completed exitCode stdout stderr =>
      simp only [generate_gps_file]
      split <;> rfl

/-- Outcome of one candidate that the Acquirer moves past: either the GET
failed (non-2xx, connection error or timeout), or it succeeded with a body
below the 100 KB size threshold. -/
def rejectedCandidate : HttpResult → Bool
  | .failure => true
  | .success body => body.size < MIN_EPHEMERIS_FILE_SIZE_KB * 1024

theorem fsErase_fsWrite_cancel (fs : FS) (p : String) (b : FileData)
    (h : fs p = none) : fsErase p (fsWrite p b fs) = fs := by
  funext q
  unfold fsErase fsWrite
  by_cases hq : q = p
  · subst hq; simp [h]
  · simp [hq]

theorem downloadLoop_all_rejected (net : Net) (cands : List (String × String))
    (fs : FS) (hfree : ∀ pr ∈ cands, fs pr.2 = none)
    (hrej : ∀ pr ∈ cands, rejectedCandidate (net pr.1) = true) :
    downloadLoop net cands fs =
      (none, fs, cands.map fun pr => .get pr.1 HTTP_TIMEOUT_SECONDS) := by
  induction cands generalizing fs with
  | nil => rfl
  | cons c rest ih =>
    obtain ⟨url, tmp⟩ := c
    have hr := hrej _ (List.mem_cons_self _ _)
    have hf := hfree _ (List.mem_cons_self _ _)
    have ihr := ih fs (fun pr h => hfree pr (List.mem_cons_of_mem _ h))
      (fun pr h => hrej pr (List.mem_cons_of_mem _ h))
    simp only [downloadLoop]
    cases hn : net url with
    | failure => simp [ihr]
    | success body =>
      rw [hn] at hr
      simp only [rejectedCandidate, decide_eq_true_eq] at hr
      dsimp only
      rw [if_pos hr, fsErase_fsWrite_cancel fs tmp body hf, ihr]
      simp

/-- Network for the delete-and-proceed scenario: the uncompressed
candidate answers 2xx with an undersized body (below 100 KB), the gzip
candidate answers 2xx with a valid 150 KB gzip stream, anything else
fails. -/
def netUndersizedThenGz : Net := fun u =>
  if u = candidateUrl exDate (brdcFilename exDate) then
    .success (.raw [1, 2, 3])
  else if u = candidateUrl exDate (brdcFilename exDate ++ ".gz") then
    .success (.gz 153600 [7, 7, 7])
  else .failure

/-- C3: a candidate whose 2xx body is below the 100 KB threshold is
deleted and the Acquirer proceeds to the next candidate; when every
candidate fails or is below the threshold, the Acquirer issues all three
GETs in order, leaves the file store as it found it (every downloaded
file deleted), and returns failure.  The second conjunct runs the
scenario: an undersized first candidate is discarded, and the next
candidate is fetched and succeeds. -/
theorem c3_undersized_downloads_discarded :
    (∀ (net : Net) (t : DateTime) (output_path : String) (fs : FS),
      (∀ pr ∈ urlsToTry t output_path, fs pr.2 = none) →
      (∀ pr ∈ urlsToTry t output_path, rejectedCandidate (net pr.1) = true) →
      download_ephemeris_file net t output_path fs =
        (none, fs,
         (urlsToTry t output_path).map fun pr => .get pr.1 HTTP_TIMEOUT_SECONDS)) ∧
    ((download_ephemeris_file netUndersizedThenGz exDate "brdc1560.25n"
        fsEmpty).1 = some "brdc1560.25n" ∧
     (download_ephemeris_file netUndersizedThenGz exDate "brdc1560.25n"
        fsEmpty).2.1 "brdc1560.25n" = some (.raw [7, 7, 7]) ∧
     (download_ephemeris_file netUndersizedThenGz exDate "brdc1560.25n"
        fsEmpty).2.1 "brdc1560.25n.gz" = none ∧
     (download_ephemeris_file netUndersizedThenGz exDate "brdc1560.25n"
        fsEmpty).2.2 =
       [.get (candidateUrl exDate (brdcFilename exDate)) HTTP_TIMEOUT_SECONDS,
        .get (candidateUrl exDate (brdcFilename exDate ++ ".gz"))
          HTTP_TIMEOUT_SECONDS]) := by
  constructor
  · intro net t output_path fs hfree hrej
    have hloop := downloadLoop_all_rejected net (urlsToTry t output_path) fs
      hfree hrej
    simp only [download_ephemeris_file, hloop]
  · exact ⟨by decide, by decide, by decide, by decide⟩

/-- Witness for `c3_undersized_downloads_discarded`: a network where all
three candidates fail outright, on an empty store. -/
theorem c3_undersized_downloads_discarded_witness :
    download_ephemeris_file (fun _ => .failure) exDate "o.n" fsEmpty =
      (none, fsEmpty,
       (urlsToTry exDate "o.n").map fun pr => .get pr.1 HTTP_TIMEOUT_SECONDS) :=
  c3_undersized_downloads_discarded.1 (fun _ => .failure) exDate "o.n" fsEmpty
    (by decide) (by decide)

/-- Network where only the legacy `.Z` candidate succeeds, with a valid
150 KB gzip stream. -/
def netOnlyZ : Net := fun u =>
  if u = candidateUrl exDate (brdcFilename exDate ++ ".Z") then
    .success (.gz 153600 [9, 9])
  else .failure

/-- C2 at the failing input: when the successful candidate is the `.Z`
one, V2 line 213 tests the lower-cased path against the upper-case
suffix `".Z"` (`downloaded_temp_path.lower().endswith(.Z)`), which can
never hold, so the Acquirer skips decompression, leaves the compressed
intermediate `brdc1560.25n.Z` on disk, and returns the path
`brdc1560.25n`, at which no file exists - contradicting the claim (and
the function, docstring and comments that promise `.Z` decompression).
The first conjunct shows the `.gz` candidate path does behave as claimed:
decompressed output equal to the original payload, intermediate deleted. -/
theorem c2_Z_candidate_not_decompressed :
    ((download_ephemeris_file netUndersizedThenGz exDate "brdc1560.25n"
        fsEmpty).1 = some "brdc1560.25n" ∧
     (download_ephemeris_file netUndersizedThenGz exDate "brdc1560.25n"
        fsEmpty).2.1 "brdc1560.25n" = some (.raw [7, 7, 7]) ∧
     gunzipData (.gz 153600 [7, 7, 7]) = some [7, 7, 7] ∧
     (download_ephemeris_file netUndersizedThenGz exDate "brdc1560.25n"
        fsEmpty).2.1 "brdc1560.25n.gz" = none) ∧
    ((download_ephemeris_file netOnlyZ exDate "brdc1560.25n" fsEmpty).1 =
        some "brdc1560.25n" ∧
     (download_ephemeris_file netOnlyZ exDate "brdc1560.25n" fsEmpty).2.1
        "brdc1560.25n" = none ∧
     (download_ephemeris_file netOnlyZ exDate "brdc1560.25n" fsEmpty).2.1
        "brdc1560.25n.Z" = some (.gz 153600 [9, 9])) := by
  exact ⟨⟨by decide, by decide, by decide, by decide⟩,
         by decide, by decide, by decide⟩

theorem fsWrite_self (fs : FS) (p : String) (d : FileData)
    (h : fs p = some d) : fsWrite p d fs = fs := by
  funext q
  unfold fsWrite
  by_cases hq : q = p
  · subst hq; simp [h]
  · simp [hq]

theorem pathJoin_right_inj {a b c : String} (h : pathJoin a b = pathJoin a c) :
    b = c := by
  unfold pathJoin at h
  have hd := congrArg String.data h
  simp only [String.data_append] at hd
  exact String.ext (List.append_cancel_left hd)
theorem pathJoin_ne_left (a b : String) : pathJoin a b ≠ a := by
  intro h
  have hl := congrArg (fun s => s.data.length) h
  simp only [pathJoin, String.data_append, List.length_append] at hl
  have hsep : osSep.data.length = 1 := rfl
  omega

/-- Evaluation of one Distributor call on an accessible root with no file
occupying the `gps` folder path, whose two source files exist and neither
of which is already its own destination: creates the folder and copies
both files in. -/
theorem copyEval (fs : DiskFS) (c8_file txt_file root : String)
    (d1 d2 : FileData)
    (hex : pathExists fs root = true)
    (hgps : fs.files (pathJoin root "gps") = none)
    (hc8 : fs.files c8_file = some d1)
    (hs1 : ¬ c8_file = pathJoin (pathJoin root "gps") (baseNameOfPath c8_file))
    (htxt : fsWrite (pathJoin (pathJoin root "gps") (baseNameOfPath c8_file))
      d1 fs.files txt_file = some d2)
    (hs2 : ¬ txt_file = pathJoin (pathJoin root "gps") (baseNameOfPath txt_file)) :
    copy_files_to_sd_card c8_file txt_file root fs =
      (.ok,
       ⟨fsWrite (pathJoin (pathJoin root "gps") (baseNameOfPath txt_file)) d2
          (fsWrite (pathJoin (pathJoin root "gps") (baseNameOfPath c8_file)) d1
            fs.files),
        fun q => if q = pathJoin root "gps" then true else fs.dirs q⟩) := by
  simp [copy_files_to_sd_card, makeDirs, hex, hgps, hc8, hs1, htxt, hs2]

/-- C9 (amended): with an accessible target root, no regular file at
`targetRoot/gps`, and neither source already sitting at its own
destination, the Distributor creates `targetRoot/gps` (idempotently),
copies both files in overwriting same-named files, and a second call with
the same inputs succeeds and leaves the disk unchanged - exactly one copy
of each file; a nonexistent root returns failure without an unhandled
fault.  However (the corrections): a regular file occupying
`targetRoot/gps` makes `os.makedirs` - which runs outside the `try` -
raise an unhandled `FileExistsError`, and a source file that already is
its own destination makes `shutil.copy` raise `SameFileError`, which the
handler converts into a failure return. -/
theorem c9_distributor
    (fs : DiskFS) (c8_file txt_file root : String) (d1 d2 : FileData)
    (hroot : fs.dirs root = true)
    (hgps : fs.files (pathJoin root "gps") = none)
    (h1 : fs.files c8_file = some d1)
    (h2 : fs.files txt_file = some d2)
    (hbn : baseNameOfPath c8_file ≠ baseNameOfPath txt_file)
    (hself1 : c8_file ≠ pathJoin (pathJoin root "gps") (baseNameOfPath c8_file))
    (hself2 : txt_file ≠ pathJoin (pathJoin root "gps") (baseNameOfPath txt_file))
    (hC8txt : pathJoin (pathJoin root "gps") (baseNameOfPath c8_file) ≠ txt_file)
    (hTxtc8 : pathJoin (pathJoin root "gps") (baseNameOfPath txt_file) ≠ c8_file) :
    (copy_files_to_sd_card c8_file txt_file root fs).1 = .ok ∧
    (copy_files_to_sd_card c8_file txt_file root fs).2.dirs
      (pathJoin root "gps") = true ∧
    (copy_files_to_sd_card c8_file txt_file root fs).2.files
      (pathJoin (pathJoin root "gps") (baseNameOfPath c8_file)) = some d1 ∧
    (copy_files_to_sd_card c8_file txt_file root fs).2.files
      (pathJoin (pathJoin root "gps") (baseNameOfPath txt_file)) = some d2 ∧
    copy_files_to_sd_card c8_file txt_file root
        (copy_files_to_sd_card c8_file txt_file root fs).2 =
      (.ok, (copy_files_to_sd_card c8_file txt_file root fs).2) ∧
    (∀ (gs : DiskFS) (badRoot : String), pathExists gs badRoot = false →
      copy_files_to_sd_card c8_file txt_file badRoot gs = (.failed, gs)) ∧
    (∀ (gs : DiskFS) (r : String) (d : FileData), pathExists gs r = true →
      gs.files (pathJoin r "gps") = some d →
      copy_files_to_sd_card c8_file txt_file r gs = (.raised, gs)) ∧
    (∀ (gs : DiskFS) (f g r : String) (d : FileData), pathExists gs r = true →
      gs.files (pathJoin r "gps") = none →
      gs.files f = some d →
      f = pathJoin (pathJoin r "gps") (baseNameOfPath f) →
      (copy_files_to_sd_card f g r gs).1 = .failed) := by
  have hne1 : ¬ txt_file = pathJoin (pathJoin root "gps") (baseNameOfPath c8_file) :=
    fun he => hC8txt he.symm
  have hne2 : ¬ c8_file = pathJoin (pathJoin root "gps") (baseNameOfPath txt_file) :=
    fun he => hTxtc8 he.symm
  have hdd : pathJoin (pathJoin root "gps") (baseNameOfPath c8_file) ≠
      pathJoin (pathJoin root "gps") (baseNameOfPath txt_file) :=
    fun he => hbn (pathJoin_right_inj he)
  have hgd1 : ¬ pathJoin root "gps" =
      pathJoin (pathJoin root "gps") (baseNameOfPath c8_file) :=
    fun he => pathJoin_ne_left _ _ he.symm
  have hgd2 : ¬ pathJoin root "gps" =
      pathJoin (pathJoin root "gps") (baseNameOfPath txt_file) :=
    fun he => pathJoin_ne_left _ _ he.symm
  have hex1 : pathExists fs root = true := by simp [pathExists, hroot]
  have htxt1 : fsWrite (pathJoin (pathJoin root "gps") (baseNameOfPath c8_file))
      d1 fs.files txt_file = some d2 := by
    simp only [fsWrite]
    rw [if_neg hne1, h2]
  have hfirst := copyEval fs c8_file txt_file root d1 d2 hex1 hgps h1 hself1
    htxt1 hself2
  have hrd : fsWrite (pathJoin (pathJoin root "gps") (baseNameOfPath txt_file)) d2
      (fsWrite (pathJoin (pathJoin root "gps") (baseNameOfPath c8_file)) d1
        fs.files)
      (pathJoin (pathJoin root "gps") (baseNameOfPath c8_file)) = some d1 := by
    simp [fsWrite, hdd]
  have hrt : fsWrite (pathJoin (pathJoin root "gps") (baseNameOfPath txt_file)) d2
      (fsWrite (pathJoin (pathJoin root "gps") (baseNameOfPath c8_file)) d1
        fs.files)
      (pathJoin (pathJoin root "gps") (baseNameOfPath txt_file)) = some d2 := by
    simp [fsWrite]
  have hwc8 : fsWrite (pathJoin (pathJoin root "gps") (baseNameOfPath c8_file)) d1
      (fsWrite (pathJoin (pathJoin root "gps") (baseNameOfPath txt_file)) d2
        (fsWrite (pathJoin (pathJoin root "gps") (baseNameOfPath c8_file)) d1
          fs.files)) =
      fsWrite (pathJoin (pathJoin root "gps") (baseNameOfPath txt_file)) d2
        (fsWrite (pathJoin (pathJoin root "gps") (baseNameOfPath c8_file)) d1
          fs.files) :=
    fsWrite_self _ _ _ hrd
  have hwtxt : fsWrite (pathJoin (pathJoin root "gps") (baseNameOfPath txt_file)) d2
      (fsWrite (pathJoin (pathJoin root "gps") (baseNameOfPath txt_file)) d2
        (fsWrite (pathJoin (pathJoin root "gps") (baseNameOfPath c8_file)) d1
          fs.files)) =
      fsWrite (pathJoin (pathJoin root "gps") (baseNameOfPath txt_file)) d2
        (fsWrite (pathJoin (pathJoin root "gps") (baseNameOfPath c8_file)) d1
          fs.files) :=
    fsWrite_self _ _ _ hrt
  have hex2 : pathExists
      (⟨fsWrite (pathJoin (pathJoin root "gps") (baseNameOfPath txt_file)) d2
          (fsWrite (pathJoin (pathJoin root "gps") (baseNameOfPath c8_file)) d1
            fs.files),
        fun q => if q = pathJoin root "gps" then true else fs.dirs q⟩ : DiskFS)
      root = true := by
    simp only [pathExists]
    by_cases hr : root = pathJoin root "gps"
    · rw [if_pos hr]; simp
    · rw [if_neg hr, hroot]; simp
  have hgps2 : (⟨fsWrite (pathJoin (pathJoin root "gps") (baseNameOfPath txt_file)) d2
          (fsWrite (pathJoin (pathJoin root "gps") (baseNameOfPath c8_file)) d1
            fs.files),
        fun q => if q = pathJoin root "gps" then true else fs.dirs q⟩ : DiskFS).files
      (pathJoin root "gps") = none := by
    simp only [fsWrite]
    rw [if_neg hgd2, if_neg hgd1, hgps]
  have hc82 : (⟨fsWrite (pathJoin (pathJoin root "gps") (baseNameOfPath txt_file)) d2
          (fsWrite (pathJoin (pathJoin root "gps") (baseNameOfPath c8_file)) d1
            fs.files),
        fun q => if q = pathJoin root "gps" then true else fs.dirs q⟩ : DiskFS).files
      c8_file = some d1 := by
    simp only [fsWrite]
    rw [if_neg hne2, if_neg hself1, h1]
  have htxt2 : fsWrite (pathJoin (pathJoin root "gps") (baseNameOfPath c8_file)) d1
      (⟨fsWrite (pathJoin (pathJoin root "gps") (baseNameOfPath txt_file)) d2
          (fsWrite (pathJoin (pathJoin root "gps") (baseNameOfPath c8_file)) d1
            fs.files),
        fun q => if q = pathJoin root "gps" then true else fs.dirs q⟩ : DiskFS).files
      txt_file = some d2 := by
    simp only [fsWrite]
    rw [if_neg hne1, if_neg hself2, if_neg hne1, h2]
  refine ⟨by rw [hfirst], by rw [hfirst]; simp, by rw [hfirst]; exact hrd,
    by rw [hfirst]; exact hrt, ?_,
    fun gs badRoot hbad => by simp [copy_files_to_sd_card, hbad],
    fun gs r d hexr hgf => by simp [copy_files_to_sd_card, makeDirs, hexr, hgf],
    ?_⟩
  · rw [hfirst]
    rw [copyEval _ _ _ _ _ _ hex2 hgps2 hc82 hself1 htxt2 hself2]
    congr 1
    congr 1
    · rw [hwc8]
      exact hwtxt
    · funext q
      by_cases hq : q = pathJoin root "gps" <;> simp [hq]
  · intro gs f g r d hexr hgf hfile halias
    simp only [copy_files_to_sd_card, makeDirs, hexr, hgf, hfile,
      Option.isSome_none, Bool.false_eq_true, if_false, if_true]
    rw [if_pos halias]

/-- Concrete disk for the original claim's counterexample: the two source
files already sit inside `D:\gps` - their own destination folder. -/
def diskAliased : DiskFS :=
  ⟨fun p => if p = pathJoin (pathJoin "D:" "gps") "out.c8" then some (.raw [1])
    else if p = pathJoin (pathJoin "D:" "gps") "out.txt" then some (.text "x")
    else none,
   fun q => if q = "D:" then true
    else if q = pathJoin "D:" "gps" then true else false⟩

/-- Concrete disk where a regular file named `gps` occupies the folder
path under an accessible root. -/
def diskGpsFile : DiskFS :=
  ⟨fun p => if p = pathJoin "E:" "gps" then some (.raw [0])
    else if p = "a.c8" then some (.raw [1])
    else if p = "a.txt" then some (.text "x") else none,
   fun q => if q = "E:" then true else false⟩

/-- C9 counterexample: the original claim promised that every call with an
accessible target root copies both files into `targetRoot/gps`.  Two
accessible-root instances refute it: with the sources already at their own
destinations, `shutil.copy` raises `SameFileError` and the Distributor
returns failure without copying; and with a regular file occupying
`targetRoot/gps`, `os.makedirs` (outside the `try`) raises an unhandled
`FileExistsError`. -/
theorem c9_distributor_counterexample :
    pathExists diskAliased "D:" = true ∧
    (diskAliased.files (pathJoin (pathJoin "D:" "gps") "out.c8")).isSome = true ∧
    (diskAliased.files (pathJoin (pathJoin "D:" "gps") "out.txt")).isSome = true ∧
    (copy_files_to_sd_card (pathJoin (pathJoin "D:" "gps") "out.c8")
        (pathJoin (pathJoin "D:" "gps") "out.txt") "D:" diskAliased).1 =
      CopyResult.failed ∧
    CopyResult.failed ≠ CopyResult.ok ∧
    pathExists diskGpsFile "E:" = true ∧
    (copy_files_to_sd_card "a.c8" "a.txt" "E:" diskGpsFile).1 =
      CopyResult.raised ∧
    CopyResult.raised ≠ CopyResult.ok := by
  exact ⟨by decide, by decide, by decide, by decide, by decide, by decide,
    by decide, by decide⟩

/-- Concrete disk for the Distributor witness: two source files outside
the destination folder and an accessible root directory. -/
def diskEx : DiskFS :=
  ⟨fun p => if p = "out.c8" then some (.raw [1])
    else if p = "out.txt" then some (.text "x") else none,
   fun q => q = "D:"⟩

/-- Witness for `c9_distributor` on `diskEx`. -/
theorem c9_distributor_witness :
    (copy_files_to_sd_card "out.c8" "out.txt" "D:" diskEx).1 = CopyResult.ok ∧
    (copy_files_to_sd_card "out.c8" "out.txt" "D:" diskEx).2.dirs
      (pathJoin "D:" "gps") = true ∧
    (copy_files_to_sd_card "out.c8" "out.txt" "D:" diskEx).2.files
      (pathJoin (pathJoin "D:" "gps") (baseNameOfPath "out.c8")) =
        some (.raw [1]) ∧
    (copy_files_to_sd_card "out.c8" "out.txt" "D:" diskEx).2.files
      (pathJoin (pathJoin "D:" "gps") (baseNameOfPath "out.txt")) =
        some (.text "x") ∧
    copy_files_to_sd_card "out.c8" "out.txt" "D:"
        (copy_files_to_sd_card "out.c8" "out.txt" "D:" diskEx).2 =
      (CopyResult.ok, (copy_files_to_sd_card "out.c8" "out.txt" "D:" diskEx).2) := by
  have h := c9_distributor diskEx "out.c8" "out.txt" "D:" (.raw [1]) (.text "x")
    (by decide) (by decide) (by decide) (by decide) (by decide) (by decide)
    (by decide) (by decide) (by decide)
  exact ⟨h.1, h.2.1, h.2.2.1, h.2.2.2.1, h.2.2.2.2.1⟩

theorem strData_append (x y : String) : (x ++ y).data = x.data ++ y.data := rfl

theorem digitChar_inj : ∀ a < 10, ∀ b < 10, digitChar a = digitChar b → a = b := by
  decide

theorem digitChar_inj2 {a b : Nat} (h : digitChar a = digitChar b)
    (ha : a < 10) (hb : b < 10) : a = b :=
  digitChar_inj a ha b hb h

theorem splitAtUnderscore :
    ∀ (a1 : List Char) {b1 : List Char} (a2 : List Char) {b2 : List Char},
      '_' ∉ a1 → '_' ∉ a2 →
      a1 ++ '_' :: b1 = a2 ++ '_' :: b2 →
      a1 = a2 ∧ b1 = b2 := by
  intro a1
  induction a1 with
  | nil =>
    intro b1 a2 b2 _ hm2 h
    cases a2 with
    | nil => simpa using h
    | cons d ds =>
      simp only [List.nil_append, List.cons_append, List.cons.injEq] at h
      exact absurd (h.1 ▸ List.mem_cons_self _ _) hm2
  | cons c cs ih =>
    intro b1 a2 b2 hm1 hm2 h
    cases a2 with
    | nil =>
      simp only [List.cons_append, List.nil_append, List.cons.injEq] at h
      exact absurd (h.1 ▸ List.mem_cons_self _ _) hm1
    | cons d ds =>
      simp only [List.cons_append, List.cons.injEq] at h
      have hm1' : '_' ∉ cs := fun hx => hm1 (List.mem_cons_of_mem _ hx)
      have hm2' : '_' ∉ ds := fun hx => hm2 (List.mem_cons_of_mem _ hx)
      obtain ⟨hh, ht⟩ := h
      obtain ⟨e1, e2⟩ := ih ds hm1' hm2' ht
      exact ⟨by rw [hh, e1], e2⟩

theorem daysInMonth_le (y m : Nat) : daysInMonth y m ≤ 31 := by
  unfold daysInMonth
  split <;> (try split) <;> omega

theorem fmtCompactTime_inj {t1 t2 : DateTime}
    (hv1 : ValidDT t1) (hv2 : ValidDT t2)
    (h : fmtCompactTime t1 = fmtCompactTime t2) : t1 = t2 := by
  obtain ⟨y1, mo1, d1, h1, mi1, s1⟩ := t1
  obtain ⟨y2, mo2, d2, h2, mi2, s2⟩ := t2
  simp only [ValidDT] at hv1 hv2
  obtain ⟨hy1a, hy1b, hmo1a, hmo1b, hd1a, hd1b, hh1, hmi1, hs1⟩ := hv1
  obtain ⟨hy2a, hy2b, hmo2a, hmo2b, hd2a, hd2b, hh2, hmi2, hs2⟩ := hv2
  have hd : [digitChar (y1 / 100 / 10), digitChar (y1 / 100 % 10),
      digitChar (y1 % 100 / 10), digitChar (y1 % 100 % 10),
      digitChar (mo1 / 10), digitChar (mo1 % 10),
      digitChar (d1 / 10), digitChar (d1 % 10), '_',
      digitChar (h1 / 10), digitChar (h1 % 10),
      digitChar (mi1 / 10), digitChar (mi1 % 10),
      digitChar (s1 / 10), digitChar (s1 % 10)] =
      [digitChar (y2 / 100 / 10), digitChar (y2 / 100 % 10),
      digitChar (y2 % 100 / 10), digitChar (y2 % 100 % 10),
      digitChar (mo2 / 10), digitChar (mo2 % 10),
      digitChar (d2 / 10), digitChar (d2 % 10), '_',
      digitChar (h2 / 10), digitChar (h2 % 10),
      digitChar (mi2 / 10), digitChar (mi2 % 10),
      digitChar (s2 / 10), digitChar (s2 % 10)] :=
    congrArg String.data h
  simp only [List.cons.injEq, and_true] at hd
  obtain ⟨e1, e2, e3, e4, e5, e6, e7, e8, _, e9, e10, e11, e12, e13, e14⟩ := hd
  have hb1 := daysInMonth_le y1 mo1
  have hb2 := daysInMonth_le y2 mo2
  have g1 := digitChar_inj2 e1 (by omega) (by omega)
  have g2 := digitChar_inj2 e2 (by omega) (by omega)
  have g3 := digitChar_inj2 e3 (by omega) (by omega)
  have g4 := digitChar_inj2 e4 (by omega) (by omega)
  have g5 := digitChar_inj2 e5 (by omega) (by omega)
  have g6 := digitChar_inj2 e6 (by omega) (by omega)
  have g7 := digitChar_inj2 e7 (by omega) (by omega)
  have g8 := digitChar_inj2 e8 (by omega) (by omega)
  have g9 := digitChar_inj2 e9 (by omega) (by omega)
  have g10 := digitChar_inj2 e10 (by omega) (by omega)
  have g11 := digitChar_inj2 e11 (by omega) (by omega)
  have g12 := digitChar_inj2 e12 (by omega) (by omega)
  have g13 := digitChar_inj2 e13 (by omega) (by omega)
  have g14 := digitChar_inj2 e14 (by omega) (by omega)
  simp only [DateTime.mk.injEq]
  refine ⟨by omega, by omega, by omega, by omega, by omega, by omega⟩

/-- Altitude of a second request, parsed by `float("711")`: renders as
`"711.0"` and `"711.0000"`. -/
def alt711 : PyFloat := ⟨"711.0", "711.0000"⟩

/-- C5 counterexample: two distinct simulation requests - identical except
for the altitude (710 m versus 711 m) - produce the same output artifact
base name, because `output_filename_base` uses only latitude, longitude
(each to 4 decimal places) and the start time; altitude never enters the
name.  So distinct requests within a run can collide. -/
theorem c5_basename_collision_counterexample :
    (⟨latRio, lonRio, altRio, exDate⟩ : SimRequest) ≠
      ⟨latRio, lonRio, alt711, exDate⟩ ∧
    output_filename_base ⟨latRio, lonRio, altRio, exDate⟩ =
      output_filename_base ⟨latRio, lonRio, alt711, exDate⟩ :=
  ⟨by decide, by decide⟩

/-- C5 (amended): distinct requests that differ in the 4-decimal
fixed-point rendering of latitude or longitude, or in the start time,
never collide in their artifact base names (the rendered coordinates
contain no underscore, and the compact timestamp of a valid date-time is
injective); requests that differ only in altitude, or only beyond the
fourth decimal place of a coordinate, can collide. -/
theorem c5_basename_distinct_amended (r1 r2 : SimRequest)
    (h1lat : '_' ∉ r1.lat.fixed4.data) (h2lat : '_' ∉ r2.lat.fixed4.data)
    (h1lon : '_' ∉ r1.lon.fixed4.data) (h2lon : '_' ∉ r2.lon.fixed4.data)
    (hv1 : ValidDT r1.time) (hv2 : ValidDT r2.time)
    (hdiff : r1.lat.fixed4 ≠ r2.lat.fixed4 ∨ r1.lon.fixed4 ≠ r2.lon.fixed4 ∨
      r1.time ≠ r2.time) :
    output_filename_base r1 ≠ output_filename_base r2 := by
  intro heq
  have hd := congrArg String.data heq
  have hu : ("_" : String).data = ['_'] := rfl
  simp only [output_filename_base, strData_append, hu, List.append_assoc,
    List.singleton_append] at hd
  have hd' := List.append_cancel_left hd
  obtain ⟨hlat, hrest⟩ := splitAtUnderscore _ _ h1lat h2lat hd'
  obtain ⟨hlon, htm⟩ := splitAtUnderscore _ _ h1lon h2lon hrest
  have htime : r1.time = r2.time :=
    fmtCompactTime_inj hv1 hv2 (String.ext htm)
  rcases hdiff with h | h | h
  · exact h (String.ext hlat)
  · exact h (String.ext hlon)
  · exact h htime

/-- Witness for `c5_basename_distinct_amended`: same coordinates, start
times one hour apart. -/
theorem c5_basename_distinct_amended_witness :
    output_filename_base ⟨latRio, lonRio, altRio, exDate⟩ ≠
      output_filename_base ⟨latRio, lonRio, altRio, ⟨2025, 6, 5, 11, 0, 0⟩⟩ :=
  c5_basename_distinct_amended _ _ (by decide) (by decide) (by decide) (by decide) (by decide)
    (by decide) (Or.inr (Or.inr (by decide)))
